import Mathlib

/-!
# Verification of `vnstat_exporter.py`

A shallow embedding of the vnstat Prometheus exporter
(`src/vnstat_exporter.py`) and proofs about its collector
(`get_vnstat_data`), publisher (`update_metrics`), driving loop
(`vnstat_metrics.run`) and startup sequence (`__main__`).

Modelling conventions:
* JSON dictionaries with optional keys become records whose fields hold the
  result of the Python `dict.get(key, default)` access: a missing list-valued
  key and an empty list are both `[]`, a missing entry dict and `{}` are both
  the entry with both fields absent.  Byte counters are `Nat`.
* The Prometheus gauge registry is a function from gauge family and label set
  (`interface` label value, `direction` label value) to an optional current
  value (`none` = this label combination was never set).  `Gauge.set`
  overwrites one label combination.
* Effects are made explicit: the subprocess call is an oracle
  `List String → SubprocessOutcome` (argument vector to outcome), JSON parsing
  an oracle `String → Option Report`, and a Python call that can raise returns
  a `PyResult`.
-/

/-- Value of the `direction` label: `rx` or `tx`. -/
inductive Direction where
  | rx
  | tx
deriving DecidableEq, Repr

/-- The six gauge families defined at lines 84–89 of the source
(`vnstat_traffic_5min` … `vnstat_traffic_total`). -/
inductive Metric where
  | fiveMin
  | hourly
  | daily
  | monthly
  | yearly
  | total
deriving DecidableEq, Repr

/-- A label set of one of the gauges: the `interface` label value (the Python
value `interface.get('name')`, which may be `None`) and the `direction`. -/
abbrev LabelSet := Option String × Direction

/-- The state of the Prometheus gauge registry: for every gauge family and
label set, the current value, or `none` when that label combination has never
been set. -/
abbrev GaugeState := Metric → LabelSet → Option Nat

/-- `GAUGE.labels(interface=name, direction=d).set(v)`: overwrite the value of
one label combination of one gauge family, leaving everything else unchanged. -/
def Gauge.set (st : GaugeState) (m : Metric) (name : Option String)
    (d : Direction) (v : Nat) : GaugeState :=
  fun m' l' => if m' = m ∧ l' = (name, d) then some v else st m' l'

/-- One period entry of a vnstat traffic window: a JSON dict whose `rx`/`tx`
members may be absent (the code reads them with `entry.get('rx', 0)`). -/
structure Entry where
  rx : Option Nat := none
  tx : Option Nat := none
deriving DecidableEq, Repr

/-- The `traffic` dict of one interface.  Each field holds the result of the
`traffic.get(key, default)` access performed by `update_metrics`:
`fiveminute`, `hour`, `day`, `month`, `year` default to `[]` and `total`
defaults to the empty entry (`traffic.get('total', {})`). -/
structure Traffic where
  fiveminute : List Entry := []
  hour : List Entry := []
  day : List Entry := []
  month : List Entry := []
  year : List Entry := []
  total : Entry := {}
deriving DecidableEq, Repr

/-- One element of the report's `interfaces` list.  `name` is
`interface.get('name')` (absent key → `none`); `traffic` is
`interface.get('traffic', {})` (absent key → the all-default `Traffic`). -/
structure Interface where
  name : Option String := none
  traffic : Traffic := {}
deriving DecidableEq, Repr

/-- The JSON object produced by `vnstat --json`, as consumed by
`update_metrics`: its `interfaces` member (when the key is present), plus
whether the object carries any other member — needed because the code tests
the Python truthiness of the whole dict (`if not data: return`). -/
structure Report where
  hasOtherKeys : Bool := false
  interfaces : Option (List Interface) := none
deriving DecidableEq, Repr

/-- Python truthiness of the parsed report dict: a dict is truthy iff it is
non-empty, i.e. it has the `interfaces` key or any other key. -/
def Report.truthy (r : Report) : Bool :=
  r.hasOtherKeys || r.interfaces.isSome

/-- Python truthiness of the value returned by `get_vnstat_data()`:
`None` is falsy, a dict is truthy iff non-empty. -/
def dataTruthy : Option Report → Bool
  | none => false
  | some r => r.truthy

/-- The value a direction reads from an entry: `entry.get('rx', 0)` /
`entry.get('tx', 0)` — the member if present, else 0. -/
def entryVal (d : Direction) (e : Entry) : Nat :=
  match d with
  | .rx => e.rx.getD 0
  | .tx => e.tx.getD 0

/-- One windowed block of `update_metrics` (lines 117–180 repeat this shape
five times): if the window's sequence is non-empty (Python list truthiness),
take its last element (`seq[-1]`) and set the rx- and tx-labelled gauge values
of family `m` for this interface; otherwise leave the state untouched. -/
def setWindow (m : Metric) (name : Option String) (entries : List Entry)
    (st : GaugeState) : GaugeState :=
  match entries.getLast? with
  | some latest =>
      Gauge.set (Gauge.set st m name .rx (entryVal .rx latest)) m name .tx
        (entryVal .tx latest)
  | none => st

/-- The per-interface body of the `for interface in data.get('interfaces', [])`
loop of `update_metrics` (lines 113–191): the five windowed blocks in source
order (5-minute, hour, day, month, year), then the unconditional total block
(lines 182–191). -/
def processInterface (st : GaugeState) (iface : Interface) : GaugeState :=
  let name := iface.name
  let t := iface.traffic
  let st1 := setWindow .fiveMin name t.fiveminute st
  let st2 := setWindow .hourly name t.hour st1
  let st3 := setWindow .daily name t.day st2
  let st4 := setWindow .monthly name t.month st3
  let st5 := setWindow .yearly name t.year st4
  let st6 := Gauge.set st5 .total name .rx (entryVal .rx t.total)
  Gauge.set st6 .total name .tx (entryVal .tx t.total)

/-- The publishing body of `update_metrics` (lines 110–191), with the value
returned by its internal `get_vnstat_data()` call passed in as `data`:
`if not data: return`, then the interface loop over
`data.get('interfaces', [])`. -/
def update_metrics_body (data : Option Report) (st : GaugeState) : GaugeState :=
  match data with
  | none => st
  | some r =>
      if r.truthy then (r.interfaces.getD []).foldl processInterface st
      else st

/-- Outcome of `subprocess.run(cmd, capture_output=True, text=True,
check=True)`: normal completion with captured stdout (exit status 0), a
non-zero exit status (which `check=True` turns into
`subprocess.CalledProcessError`), or a launch failure such as
`FileNotFoundError` when the `vnstat` binary is absent. -/
inductive SubprocessOutcome where
  | completed (stdout : String)
  | nonzeroExit (code : Nat)
  | launchFailure
deriving DecidableEq, Repr

/-- An exception a modelled call can raise.  `attributeError a` is Python's
`AttributeError` for a missing attribute named `a`; `fileNotFoundError` is the
launch failure of the subprocess call. -/
inductive PyExc where
  | attributeError (missingAttr : String)
  | fileNotFoundError
deriving DecidableEq, Repr

/-- Result of a Python call: a returned value or a raised exception. -/
inductive PyResult (α : Type) where
  | ret (val : α)
  | raised (exc : PyExc)
deriving DecidableEq, Repr

/-- Command construction of `get_vnstat_data` (lines 93–95):
`cmd = ['vnstat', '--json']`, extended with `['-i', interface]` when
`interface` is truthy — in Python both `None` and the empty string are
falsy, so an empty-string argument adds no `-i` flag. -/
def vnstat_cmd : Option String → List String
  | none => ["vnstat", "--json"]
  | some i => if i = "" then ["vnstat", "--json"] else ["vnstat", "--json", "-i", i]

/-- `get_vnstat_data(interface)` (lines 91–105).  `run` is the subprocess
oracle (applied to the constructed argument vector) and `parse` the
`json.loads` oracle (`none` = `json.JSONDecodeError`).

Control flow translated from the source:
* completion with parseable stdout returns the parsed report;
* on `CalledProcessError` and on `JSONDecodeError` the handler executes
  `logger.ERROR(...)` — but `logging.Logger` has no attribute `ERROR`
  (the method is `error`), so the attribute lookup itself raises
  `AttributeError` and the `return None` is never reached;
* a launch failure (`FileNotFoundError`) is caught by neither `except`
  clause and propagates. -/
def get_vnstat_data (run : List String → SubprocessOutcome)
    (parse : String → Option Report) (interface : Option String) :
    PyResult (Option Report) :=
  match run (vnstat_cmd interface) with
  | .completed out =>
      match parse out with
      | some d => .ret (some d)
      | none => .raised (.attributeError "ERROR")
  | .nonzeroExit _ => .raised (.attributeError "ERROR")
  | .launchFailure => .raised .fileNotFoundError

/-- The full `update_metrics` (lines 107–191): collect via
`get_vnstat_data()` (no interface argument), then publish.  An exception
raised by the collector propagates to the caller. -/
def update_metrics (run : List String → SubprocessOutcome)
    (parse : String → Option Report) (st : GaugeState) : PyResult GaugeState :=
  match get_vnstat_data run parse none with
  | .raised e => .raised e
  | .ret data => .ret (update_metrics_body data st)

/-- Record of one iteration of the `while True` loop in
`vnstat_metrics.run` (lines 203–211): the gauge state after the iteration,
the exception caught and logged by the `except Exception` handler (if any),
and how many seconds the iteration slept. -/
structure CycleRecord where
  stateAfter : GaugeState
  caughtError : Option PyExc
  sleptSeconds : Nat

/-- One iteration of the loop body: `logger.info(...)`, then
`try: update_metrics() except Exception as e: logger.error(...)`, then
`time.sleep(args.interval)` (the sleep is outside the `try`, so it runs
whether or not an exception was caught).  `attempt` is the outcome of this
cycle's `update_metrics()` call. -/
def run_body (interval : Nat) (attempt : PyResult GaugeState)
    (st : GaugeState) : CycleRecord :=
  match attempt with
  | .ret st' => ⟨st', none, interval⟩
  | .raised e => ⟨st, some e, interval⟩

/-- `n` iterations of `vnstat_metrics.run`'s loop.  `env i st` is the outcome
of the `update_metrics()` call of cycle `i` when the gauge state is `st`
(the call touches the outside world, so its outcome is an oracle). -/
def run_loop (interval : Nat) (env : Nat → GaugeState → PyResult GaugeState) :
    Nat → Nat → GaugeState → List CycleRecord
  | 0, _, _ => []
  | n + 1, i, st =>
      let c := run_body interval (env i st) st
      c :: run_loop interval env n (i + 1) c.stateAfter

/-- How the `__main__` startup sequence (lines 226–244) ends, as far as the
model follows it: either the process exits with the given status before
`vnstat_metrics()` is constructed — i.e. before `start_http_server` is
called, so the HTTP server never serves a request — or the health check
passed, the server was started and the loop entered. -/
inductive StartupOutcome where
  | exitedBeforeServer (status : Nat)
  | serverStartedLoopEntered
deriving DecidableEq, Repr

/-- The startup health check and dispatch (lines 226–244):
`if get_vnstat_data(): … else: … sys.exit(1)`.  A falsy result takes the
`sys.exit(1)` branch; an exception raised by `get_vnstat_data` (there is no
enclosing handler in `__main__`) terminates the interpreter with exit
status 1.  Both happen before `vnstat_metrics().__init__` calls
`start_http_server`. -/
def main_startup (run : List String → SubprocessOutcome)
    (parse : String → Option Report) : StartupOutcome :=
  match get_vnstat_data run parse none with
  | .raised _ => .exitedBeforeServer 1
  | .ret d =>
      if dataTruthy d then .serverStartedLoopEntered
      else .exitedBeforeServer 1

/-! ## Characterising the publisher as a sequence of overwrites -/

/-- The value (if any) that processing interface `iface` writes at gauge
family `m`, label `(n, d)`. -/
def writeOf (iface : Interface) (m : Metric) (n : Option String)
    (d : Direction) : Option Nat :=
  if n = iface.name then
    match m with
    | .fiveMin => (iface.traffic.fiveminute.getLast?).map (entryVal d)
    | .hourly => (iface.traffic.hour.getLast?).map (entryVal d)
    | .daily => (iface.traffic.day.getLast?).map (entryVal d)
    | .monthly => (iface.traffic.month.getLast?).map (entryVal d)
    | .yearly => (iface.traffic.year.getLast?).map (entryVal d)
    | .total => some (entryVal d iface.traffic.total)
  else none

/-- The winning write of an interface list at a given gauge cell: the write of
the last interface in the list that writes there (later interfaces overwrite
earlier ones). -/
def lastWrite : List Interface → Metric → Option String → Direction → Option Nat
  | [], _, _, _ => none
  | iface :: rest, m, n, d => (lastWrite rest m n d).or (writeOf iface m n d)

lemma setWindow_apply (m : Metric) (name : Option String) (es : List Entry)
    (st : GaugeState) (m' : Metric) (n : Option String) (d : Direction) :
    setWindow m name es st m' (n, d) =
      if m' = m ∧ n = name then
        ((es.getLast?).map (entryVal d)).or (st m' (n, d))
      else st m' (n, d) := by
  by_cases hm : m' = m <;> by_cases hn : n = name <;>
    cases h : es.getLast? <;> cases d <;>
      simp [setWindow, h, Gauge.set, hm, hn, Option.or]

lemma processInterface_apply (st : GaugeState) (iface : Interface) (m : Metric)
    (n : Option String) (d : Direction) :
    processInterface st iface m (n, d) =
      Option.or (writeOf iface m n d) (st m (n, d)) := by
  by_cases hn : n = iface.name <;> cases m <;> cases d <;>
    simp [processInterface, setWindow_apply, Gauge.set, writeOf, hn, Option.or]

lemma foldl_processInterface_apply (l : List Interface) (st : GaugeState)
    (m : Metric) (n : Option String) (d : Direction) :
    (l.foldl processInterface st) m (n, d) =
      Option.or (lastWrite l m n d) (st m (n, d)) := by
  induction l generalizing st with
  | nil => rfl
  | cons iface rest ih =>
      show (rest.foldl processInterface (processInterface st iface)) m (n, d) = _
      rw [ih, processInterface_apply]
      simp only [lastWrite]
      cases lastWrite rest m n d <;> rfl

lemma lastWrite_eq_none (l : List Interface) (m : Metric) (n : Option String)
    (d : Direction) (h : ∀ j ∈ l, writeOf j m n d = none) :
    lastWrite l m n d = none := by
  induction l with
  | nil => rfl
  | cons a rest ih =>
      have ha := h a (List.mem_cons_self a rest)
      have hr := ih fun j hj => h j (List.mem_cons_of_mem a hj)
      simp [lastWrite, ha, hr, Option.or]

lemma lastWrite_eq_some (l : List Interface) (m : Metric) (n : Option String)
    (d : Direction) (v : Nat)
    (hall : ∀ j ∈ l, writeOf j m n d = none ∨ writeOf j m n d = some v)
    (hex : ∃ j ∈ l, writeOf j m n d = some v) :
    lastWrite l m n d = some v := by
  induction l with
  | nil => simp at hex
  | cons a rest ih =>
      by_cases hr : ∃ j ∈ rest, writeOf j m n d = some v
      · have := ih (fun j hj => hall j (List.mem_cons_of_mem a hj)) hr
        simp [lastWrite, this, Option.or]
      · have hrnone : ∀ j ∈ rest, writeOf j m n d = none := by
          intro j hj
          rcases hall j (List.mem_cons_of_mem a hj) with h | h
          · exact h
          · exact absurd ⟨j, hj, h⟩ hr
        have h1 : lastWrite rest m n d = none := lastWrite_eq_none _ _ _ _ hrnone
        have ha : writeOf a m n d = some v := by
          rcases hex with ⟨j, hj, hw⟩
          rcases List.mem_cons.mp hj with rfl | hj'
          · exact hw
          · exact absurd ⟨j, hj', hw⟩ hr
        simp [lastWrite, h1, ha, Option.or]

lemma writeOf_of_other_name (j iface : Interface) (m : Metric) (d : Direction)
    (hn : j.name ≠ iface.name) : writeOf j m iface.name d = none := by
  unfold writeOf
  rw [if_neg (Ne.symm hn)]

/-- In a list whose interfaces named like `iface` are all `iface` itself, the
winning write at `iface`'s labels is `iface`'s own write, provided `iface`
occurs and does write. -/
lemma lastWrite_of_uniq (l : List Interface) (iface : Interface) (m : Metric)
    (d : Direction) (v : Nat) (hmem : iface ∈ l)
    (huniq : ∀ j ∈ l, j.name = iface.name → j = iface)
    (hw : writeOf iface m iface.name d = some v) :
    lastWrite l m iface.name d = some v := by
  apply lastWrite_eq_some
  · intro j hj
    by_cases hn : j.name = iface.name
    · right; rw [huniq j hj hn]; exact hw
    · left; exact writeOf_of_other_name j iface m d hn
  · exact ⟨iface, hmem, hw⟩

/-- In a list whose interfaces named like `iface` are all `iface` itself,
nothing is written at `iface`'s labels if `iface` itself writes nothing. -/
lemma lastWrite_none_of_uniq (l : List Interface) (iface : Interface)
    (m : Metric) (d : Direction)
    (huniq : ∀ j ∈ l, j.name = iface.name → j = iface)
    (hw : writeOf iface m iface.name d = none) :
    lastWrite l m iface.name d = none := by
  apply lastWrite_eq_none
  intro j hj
  by_cases hn : j.name = iface.name
  · rw [huniq j hj hn]; exact hw
  · exact writeOf_of_other_name j iface m d hn

lemma truthy_of_mem (r : Report) (iface : Interface)
    (hmem : iface ∈ r.interfaces.getD []) : r.truthy = true := by
  cases h : r.interfaces with
  | none => rw [h] at hmem; simp at hmem
  | some l => simp [Report.truthy, h]

lemma update_metrics_body_apply (r : Report) (st : GaugeState)
    (hr : r.truthy = true) (m : Metric) (n : Option String) (d : Direction) :
    update_metrics_body (some r) st m (n, d) =
      Option.or (lastWrite (r.interfaces.getD []) m n d) (st m (n, d)) := by
  simp [update_metrics_body, hr, foldl_processInterface_apply]

/-! ## Claim theorems -/

/-- **C1.** For every report containing an interface whose 5-minute sequence
is non-empty (and whose name identifies it uniquely, per the data model),
publishing sets the 5-minute gauge for that interface from exactly the last
entry of the sequence: the rx-labelled value to the entry's rx and the
tx-labelled value to its tx; the conclusion depends only on that last entry,
so earlier entries have no effect on the resulting gauge values. -/
theorem C1_fiveMin_uses_only_last_entry (r : Report) (st : GaugeState)
    (iface : Interface) (e : Entry)
    (hmem : iface ∈ r.interfaces.getD [])
    (huniq : ∀ j ∈ r.interfaces.getD [], j.name = iface.name → j = iface)
    (hlast : iface.traffic.fiveminute.getLast? = some e) :
    update_metrics_body (some r) st .fiveMin (iface.name, .rx) =
        some (e.rx.getD 0) ∧
    update_metrics_body (some r) st .fiveMin (iface.name, .tx) =
        some (e.tx.getD 0) := by
  have hr := truthy_of_mem r iface hmem
  constructor
  · rw [update_metrics_body_apply r st hr,
      lastWrite_of_uniq _ iface _ _ (e.rx.getD 0) hmem huniq
        (by simp [writeOf, hlast, entryVal])]
    rfl
  · rw [update_metrics_body_apply r st hr,
      lastWrite_of_uniq _ iface _ _ (e.tx.getD 0) hmem huniq
        (by simp [writeOf, hlast, entryVal])]
    rfl

/-- Witness for C1 at the spec's example: interface `eth0` with 5-minute
sequence `[{rx:1,tx:2},{rx:10,tx:20}]` on an empty registry yields rx gauge 10
and tx gauge 20. -/
theorem C1_witness :
    update_metrics_body
        (some ⟨false, some [⟨some "eth0",
          ⟨[⟨some 1, some 2⟩, ⟨some 10, some 20⟩], [], [], [], [],
            ⟨none, none⟩⟩⟩]⟩)
        (fun _ _ => none) .fiveMin (some "eth0", .rx) = some 10 ∧
    update_metrics_body
        (some ⟨false, some [⟨some "eth0",
          ⟨[⟨some 1, some 2⟩, ⟨some 10, some 20⟩], [], [], [], [],
            ⟨none, none⟩⟩⟩]⟩)
        (fun _ _ => none) .fiveMin (some "eth0", .tx) = some 20 :=
  C1_fiveMin_uses_only_last_entry _ _
    ⟨some "eth0",
      ⟨[⟨some 1, some 2⟩, ⟨some 10, some 20⟩], [], [], [], [], ⟨none, none⟩⟩⟩
    ⟨some 10, some 20⟩ (by simp) (by simp) rfl

/-- **C4.** For every report containing an interface (uniquely identified by
its name) one of whose five windowed sequences is empty, publishing leaves
that window's gauge values for that interface exactly as they were: a value
set in a prior cycle persists and a never-set label pair stays `none`. -/
theorem C4_empty_window_leaves_gauge_untouched (r : Report) (st : GaugeState)
    (iface : Interface)
    (hmem : iface ∈ r.interfaces.getD [])
    (huniq : ∀ j ∈ r.interfaces.getD [], j.name = iface.name → j = iface) :
    (iface.traffic.fiveminute = [] → ∀ d, update_metrics_body (some r) st
      .fiveMin (iface.name, d) = st .fiveMin (iface.name, d)) ∧
    (iface.traffic.hour = [] → ∀ d, update_metrics_body (some r) st
      .hourly (iface.name, d) = st .hourly (iface.name, d)) ∧
    (iface.traffic.day = [] → ∀ d, update_metrics_body (some r) st
      .daily (iface.name, d) = st .daily (iface.name, d)) ∧
    (iface.traffic.month = [] → ∀ d, update_metrics_body (some r) st
      .monthly (iface.name, d) = st .monthly (iface.name, d)) ∧
    (iface.traffic.year = [] → ∀ d, update_metrics_body (some r) st
      .yearly (iface.name, d) = st .yearly (iface.name, d)) := by
  have hr := truthy_of_mem r iface hmem
  refine ⟨?_, ?_, ?_, ?_, ?_⟩ <;>
  · intro h d
    rw [update_metrics_body_apply r st hr,
      lastWrite_none_of_uniq _ iface _ _ huniq (by simp [writeOf, h])]
    rfl

/-- Witness for C4: an interface `eth0` whose monthly sequence is empty, on a
registry whose monthly gauge holds value 7 from a prior cycle — the 7
persists. -/
theorem C4_witness :
    update_metrics_body
        (some ⟨false, some [⟨some "eth0", ⟨[], [], [], [], [],
          ⟨none, none⟩⟩⟩]⟩)
        (fun _ _ => some 7) .monthly (some "eth0", .rx) = some 7 :=
  (C4_empty_window_leaves_gauge_untouched _ _
    ⟨some "eth0", ⟨[], [], [], [], [], ⟨none, none⟩⟩⟩
    (by simp) (by simp)).2.2.2.1 rfl .rx

/-- **C5.** For every interface of a report (uniquely identified by its name),
publishing always sets the total gauge's rx and tx values from the single
total entry, a missing rx or tx field defaulting to 0. -/
theorem C5_total_always_set (r : Report) (st : GaugeState) (iface : Interface)
    (hmem : iface ∈ r.interfaces.getD [])
    (huniq : ∀ j ∈ r.interfaces.getD [], j.name = iface.name → j = iface) :
    update_metrics_body (some r) st .total (iface.name, .rx) =
        some (iface.traffic.total.rx.getD 0) ∧
    update_metrics_body (some r) st .total (iface.name, .tx) =
        some (iface.traffic.total.tx.getD 0) := by
  have hr := truthy_of_mem r iface hmem
  constructor
  · rw [update_metrics_body_apply r st hr,
      lastWrite_of_uniq _ iface _ _ (iface.traffic.total.rx.getD 0) hmem huniq
        (by simp [writeOf, entryVal])]
    rfl
  · rw [update_metrics_body_apply r st hr,
      lastWrite_of_uniq _ iface _ _ (iface.traffic.total.tx.getD 0) hmem huniq
        (by simp [writeOf, entryVal])]
    rfl

/-- Witness for C5 at the spec's example: total entry `{rx: 500}` with tx
absent publishes rx=500 and tx=0. -/
theorem C5_witness :
    update_metrics_body
        (some ⟨false, some [⟨some "eth0", ⟨[], [], [], [], [],
          ⟨some 500, none⟩⟩⟩]⟩)
        (fun _ _ => none) .total (some "eth0", .rx) = some 500 ∧
    update_metrics_body
        (some ⟨false, some [⟨some "eth0", ⟨[], [], [], [], [],
          ⟨some 500, none⟩⟩⟩]⟩)
        (fun _ _ => none) .total (some "eth0", .tx) = some 0 :=
  C5_total_always_set _ _
    ⟨some "eth0", ⟨[], [], [], [], [], ⟨some 500, none⟩⟩⟩ (by simp) (by simp)

/-- **C8.** Publishing is idempotent: for every report, running the publishing
body twice in a row over the same report yields a gauge state identical to
running it once. -/
theorem C8_publish_idempotent (r : Report) (st : GaugeState) :
    update_metrics_body (some r) (update_metrics_body (some r) st) =
      update_metrics_body (some r) st := by
  cases hr : r.truthy with
  | false => simp [update_metrics_body, hr]
  | true =>
      funext m l
      obtain ⟨n, d⟩ := l
      rw [update_metrics_body_apply r _ hr m n d,
        update_metrics_body_apply r st hr m n d]
      cases lastWrite (r.interfaces.getD []) m n d <;> rfl

/-- **C10.** A falsy parsed report (e.g. the empty JSON object) or one lacking
an `interfaces` key makes `update_metrics` return without raising and leave
the entire gauge state unchanged — exactly like a failed collection
(`data = None`). -/
theorem C10_falsy_or_keyless_report_is_noop (r : Report) (st : GaugeState)
    (h : r.truthy = false ∨ r.interfaces = none) :
    update_metrics_body (some r) st = st ∧
    update_metrics_body none st = st := by
  refine ⟨?_, rfl⟩
  rcases h with h | h
  · simp [update_metrics_body, h]
  · simp [update_metrics_body, h]

/-- Witness for C10: a truthy report without an `interfaces` key (a JSON
object with only unrelated members) leaves an empty registry empty. -/
theorem C10_witness :
    update_metrics_body (some ⟨true, none⟩) (fun _ _ => none) =
      (fun _ _ => none : GaugeState) ∧
    update_metrics_body none (fun _ _ => none) =
      (fun _ _ => none : GaugeState) :=
  C10_falsy_or_keyless_report_is_noop ⟨true, none⟩ _ (Or.inr rfl)

/-- **C2** (code-bug evidence). The claim says that on a non-zero exit status
`get_vnstat_data` logs the failure and returns `None` without raising.  In the
source the `except subprocess.CalledProcessError` handler calls
`logger.ERROR(...)` (line 101), but `logging.Logger` has no attribute `ERROR`
(the method is `error`), so the handler itself raises `AttributeError` and
`return None` is unreachable: the call raises instead of returning.  The
second conjunct shows the rest of the claim's effect in a loop cycle: the
raised exception reaches the loop's handler and no gauge is updated. -/
theorem C2_nonzero_exit_raises_attributeError (parse : String → Option Report)
    (interface : Option String) (st : GaugeState) (interval : Nat) :
    get_vnstat_data (fun _ => .nonzeroExit 1) parse interface =
        .raised (.attributeError "ERROR") ∧
    run_body interval (update_metrics (fun _ => .nonzeroExit 1) parse st) st =
        ⟨st, some (.attributeError "ERROR"), interval⟩ :=
  ⟨rfl, rfl⟩

/-- **C3** (code-bug evidence). The claim says that on unparseable stdout
`get_vnstat_data` logs a parse failure and returns `None` without raising.  In
the source the `except json.JSONDecodeError` handler calls `logger.ERROR(...)`
(line 104), an attribute `logging.Logger` does not have, so the handler raises
`AttributeError` and the `return None` is unreachable. -/
theorem C3_parse_failure_raises_attributeError (parse : String → Option Report)
    (out : String) (interface : Option String) (h : parse out = none) :
    get_vnstat_data (fun _ => .completed out) parse interface =
      .raised (.attributeError "ERROR") := by
  simp [get_vnstat_data, h]

/-- Witness for C3: malformed stdout under an always-failing parse oracle. -/
theorem C3_witness :
    get_vnstat_data (fun _ => .completed "not json") (fun _ => none) none =
      .raised (.attributeError "ERROR") :=
  C3_parse_failure_raises_attributeError (fun _ => none) "not json" none rfl

/-- **C6.** If the one pre-loop startup health-check collection fails — it
raises (accounting tool absent, handler bug on bad output or non-zero exit)
or returns a falsy value — the process exits with status 1 (non-zero) before
the driving loop is entered and before `start_http_server` is called, so the
HTTP metrics server never processes a request. -/
theorem C6_health_check_failure_exits_nonzero
    (run : List String → SubprocessOutcome) (parse : String → Option Report)
    (h : ∀ d, get_vnstat_data run parse none = .ret d → dataTruthy d = false) :
    ∃ s, main_startup run parse = .exitedBeforeServer s ∧ s ≠ 0 := by
  refine ⟨1, ?_, one_ne_zero⟩
  cases hg : get_vnstat_data run parse none with
  | raised e => simp [main_startup, hg]
  | ret d => simp [main_startup, hg, h d hg]

/-- Witness for C6: the accounting command exits non-zero at startup (the
collection raises), and the process exits with a non-zero status before the
server starts. -/
theorem C6_witness :
    ∃ s, main_startup (fun _ => .nonzeroExit 1) (fun _ => none) =
        .exitedBeforeServer s ∧ s ≠ 0 :=
  C6_health_check_failure_exits_nonzero _ _ (fun _ hd => PyResult.noConfusion hd)

/-- **C7.** The driving loop catches every exception a cycle's
`update_metrics()` call raises: however the environment behaves, `n`
iterations produce exactly `n` cycle records (no exception terminates the
loop), every iteration sleeps the configured interval, and an iteration whose
update raised `e` logs `e` via the `except Exception` handler and leaves the
gauge state as it was. -/
theorem C7_loop_catches_all_cycle_exceptions (interval : Nat)
    (env : Nat → GaugeState → PyResult GaugeState) (n i : Nat)
    (st : GaugeState) :
    (run_loop interval env n i st).length = n ∧
    (∀ c ∈ run_loop interval env n i st, c.sleptSeconds = interval) ∧
    ∀ (e : PyExc) (st' : GaugeState),
      run_body interval (.raised e) st' = ⟨st', some e, interval⟩ := by
  refine ⟨?_, ?_, fun e st' => rfl⟩
  · induction n generalizing i st with
    | zero => rfl
    | succ k ih => simpa [run_loop] using ih (i + 1) _
  · induction n generalizing i st with
    | zero => intro c hc; simp [run_loop] at hc
    | succ k ih =>
        intro c hc
        rw [run_loop] at hc
        rcases List.mem_cons.mp hc with rfl | hc'
        · cases h : env i st <;> simp [run_body, h]
        · exact ih (i + 1) _ c hc'

/-- **C9** counterexample. The claim as stated — an interface filter being
given always yields `['vnstat', '--json', '-i', <interface>]` — fails for the
empty-string filter: Python's `if interface:` treats `""` as falsy, so the
`-i` flag is not appended. -/
theorem C9_counterexample :
    vnstat_cmd (some "") = ["vnstat", "--json"] ∧
    vnstat_cmd (some "") ≠ ["vnstat", "--json", "-i", ""] := by
  constructor
  · rfl
  · decide

/-- **C9** amended. `get_vnstat_data` invokes the accounting tool with exactly
`['vnstat', '--json']` when no interface filter is given, and with
`['vnstat', '--json', '-i', <interface>]` when a non-empty interface filter is
given (an empty-string filter is falsy in Python and behaves like no
filter). -/
theorem C9_command_vector (i : String) :
    vnstat_cmd none = ["vnstat", "--json"] ∧
    (i ≠ "" → vnstat_cmd (some i) = ["vnstat", "--json", "-i", i]) :=
  ⟨rfl, fun h => by simp [vnstat_cmd, h]⟩

/-- Witness for C9 at filter `eth0`. -/
theorem C9_witness :
    vnstat_cmd (some "eth0") = ["vnstat", "--json", "-i", "eth0"] :=
  (C9_command_vector "eth0").2 (by decide)
